import Mathlib

set_option autoImplicit false

/-!
Shallow embedding of the `tca9555` driver crate (src/tca9555/src/lib.rs):
the device-address resolver, the register command constants, the generic
I2C transport interface, and every driver operation.  Machine integers
(`u8`, `u16`) are modelled as `Nat` with explicit `% 256` / `% 65536`
reductions at the points where the Rust types truncate.

A transport is a record of functions threading an abstract bus state and
returning `Except E` results, mirroring `embedded_hal::blocking::i2c`'s
`Write` and `WriteRead` traits: the bus state is always threaded back
(Rust keeps `self.i2c` alive after a failed call), while the `Result` is
either the error or the payload.
-/

namespace command

/-- Register command byte `READ_PORT_0` from the crate's `command` module. -/
def READ_PORT_0 : Nat := 0x00

/-- Register command byte `READ_PORT_1`. -/
def READ_PORT_1 : Nat := 0x01

/-- Register command byte `WRITE_PORT_0`. -/
def WRITE_PORT_0 : Nat := 0x02

/-- Register command byte `WRITE_PORT_1`. -/
def WRITE_PORT_1 : Nat := 0x03

/-- Register command byte `POLARITY_INVERT_PORT_0`. -/
def POLARITY_INVERT_PORT_0 : Nat := 0x04

/-- Register command byte `POLARITY_INVERT_PORT_1`. -/
def POLARITY_INVERT_PORT_1 : Nat := 0x05

/-- Register command byte `CONFIGURATION_PORT_0`. -/
def CONFIGURATION_PORT_0 : Nat := 0x06

/-- Register command byte `CONFIGURATION_PORT_1`. -/
def CONFIGURATION_PORT_1 : Nat := 0x07

end command

/-- The `DeviceAddr` enum: either the default address (all address pins
grounded) or an alternative address given by the `(A0, A1, A2)` pin values. -/
inductive DeviceAddr where
  | Default : DeviceAddr
  | Alternative : Bool → Bool → Bool → DeviceAddr
deriving DecidableEq, Repr

/-- The associated constant `DeviceAddr::DEFAULT = 0x20`. -/
def DeviceAddr.DEFAULT : Nat := 0x20

/-- `DeviceAddr::addr`: resolve the raw 7-bit bus address.  Booleans are
converted as Rust's `as u8` (`Bool.toNat`) and combined with `|` and `<<`. -/
def DeviceAddr.addr : DeviceAddr → Nat
  | DeviceAddr.Default => DeviceAddr.DEFAULT
  | DeviceAddr.Alternative a0 a1 a2 =>
      DeviceAddr.DEFAULT ||| a0.toNat ||| (a1.toNat <<< 1) ||| (a2.toNat <<< 2)

/-- The `impl Default for DeviceAddr`: `DeviceAddr::default()` is `Default`. -/
def DeviceAddr.default_impl : DeviceAddr := DeviceAddr.Default

/-- Transport capability `embedded_hal::blocking::i2c::Write`: send bytes to
a 7-bit address.  The bus state is threaded; the `Except` carries the Rust
`Result<(), E>`. -/
structure WriteCap (I2C E : Type) where
  write : I2C → Nat → List Nat → I2C × Except E Unit

/-- Transport capability `embedded_hal::blocking::i2c::WriteRead`: send the
out bytes, then read bytes into the supplied buffer as one transaction.  On
success the payload is the buffer contents after the call. -/
structure WriteReadCap (I2C E : Type) where
  write_read : I2C → Nat → List Nat → List Nat → I2C × Except E (List Nat)

/-- The `Tca9555<I2C>` struct: a stored `DeviceAddr` and the owned transport. -/
structure Tca9555 (I2C : Type) where
  address : DeviceAddr
  i2c : I2C
deriving Repr

/-- `Tca9555::new`: create a device with the given address. -/
def Tca9555.new {I2C : Type} (i2c : I2C) (address : DeviceAddr) : Tca9555 I2C :=
  Tca9555.mk address i2c

/-- `u16::from_be_bytes([hi, lo])` on byte values modelled as `Nat`. -/
def u16_from_be_bytes (hi lo : Nat) : Nat :=
  (hi % 256) * 256 + (lo % 256)

/-- `u16::to_be_bytes` of a `u16` value modelled as `Nat`: `(high, low)`. -/
def u16_to_be_bytes (value : Nat) : Nat × Nat :=
  ((value % 65536) / 256, value % 256)

/-- `Tca9555::read_port_0`: write-read with out bytes `[READ_PORT_0]` and a
one-byte buffer initialised to `[0]`; on success return `value[0]`. -/
def Tca9555.read_port_0 {I2C E : Type} (bus : WriteReadCap I2C E)
    (dev : Tca9555 I2C) : Tca9555 I2C × Except E Nat :=
  match bus.write_read dev.i2c dev.address.addr [command.READ_PORT_0] [0] with
  | (s, Except.error e) => (Tca9555.mk dev.address s, Except.error e)
  | (s, Except.ok value) => (Tca9555.mk dev.address s, Except.ok (value.headD 0))

/-- `Tca9555::read_port_1`: as `read_port_0` with command `READ_PORT_1`. -/
def Tca9555.read_port_1 {I2C E : Type} (bus : WriteReadCap I2C E)
    (dev : Tca9555 I2C) : Tca9555 I2C × Except E Nat :=
  match bus.write_read dev.i2c dev.address.addr [command.READ_PORT_1] [0] with
  | (s, Except.error e) => (Tca9555.mk dev.address s, Except.error e)
  | (s, Except.ok value) => (Tca9555.mk dev.address s, Except.ok (value.headD 0))

/-- `Tca9555::read_all`: `read_port_0`, then (via `?`) `read_port_1`, then
`u16::from_be_bytes([port1, port0])`. -/
def Tca9555.read_all {I2C E : Type} (bus : WriteReadCap I2C E)
    (dev : Tca9555 I2C) : Tca9555 I2C × Except E Nat :=
  match Tca9555.read_port_0 bus dev with
  | (dev1, Except.error e) => (dev1, Except.error e)
  | (dev1, Except.ok port0) =>
    match Tca9555.read_port_1 bus dev1 with
    | (dev2, Except.error e) => (dev2, Except.error e)
    | (dev2, Except.ok port1) => (dev2, Except.ok (u16_from_be_bytes port1 port0))

/-- `Tca9555::write_port_0`: write `[WRITE_PORT_0, value]`.  The `% 256`
reflects the `u8` type of `value`. -/
def Tca9555.write_port_0 {I2C E : Type} (bus : WriteCap I2C E)
    (dev : Tca9555 I2C) (value : Nat) : Tca9555 I2C × Except E Unit :=
  match bus.write dev.i2c dev.address.addr [command.WRITE_PORT_0, value % 256] with
  | (s, r) => (Tca9555.mk dev.address s, r)

/-- `Tca9555::write_port_1`: write `[WRITE_PORT_1, value]`. -/
def Tca9555.write_port_1 {I2C E : Type} (bus : WriteCap I2C E)
    (dev : Tca9555 I2C) (value : Nat) : Tca9555 I2C × Except E Unit :=
  match bus.write dev.i2c dev.address.addr [command.WRITE_PORT_1, value % 256] with
  | (s, r) => (Tca9555.mk dev.address s, r)

/-- `Tca9555::set_port_0_direction`: write `[CONFIGURATION_PORT_0, dir_mask]`. -/
def Tca9555.set_port_0_direction {I2C E : Type} (bus : WriteCap I2C E)
    (dev : Tca9555 I2C) (dir_mask : Nat) : Tca9555 I2C × Except E Unit :=
  match bus.write dev.i2c dev.address.addr
      [command.CONFIGURATION_PORT_0, dir_mask % 256] with
  | (s, r) => (Tca9555.mk dev.address s, r)

/-- `Tca9555::set_port_1_direction`: write `[CONFIGURATION_PORT_1, dir_mask]`. -/
def Tca9555.set_port_1_direction {I2C E : Type} (bus : WriteCap I2C E)
    (dev : Tca9555 I2C) (dir_mask : Nat) : Tca9555 I2C × Except E Unit :=
  match bus.write dev.i2c dev.address.addr
      [command.CONFIGURATION_PORT_1, dir_mask % 256] with
  | (s, r) => (Tca9555.mk dev.address s, r)

/-- `Tca9555::set_port_0_polarity_invert`: write
`[POLARITY_INVERT_PORT_0, polarity_mask]`. -/
def Tca9555.set_port_0_polarity_invert {I2C E : Type} (bus : WriteCap I2C E)
    (dev : Tca9555 I2C) (polarity_mask : Nat) : Tca9555 I2C × Except E Unit :=
  match bus.write dev.i2c dev.address.addr
      [command.POLARITY_INVERT_PORT_0, polarity_mask % 256] with
  | (s, r) => (Tca9555.mk dev.address s, r)

/-- `Tca9555::set_port_1_polarity_invert`: write
`[POLARITY_INVERT_PORT_1, polarity_mask]`. -/
def Tca9555.set_port_1_polarity_invert {I2C E : Type} (bus : WriteCap I2C E)
    (dev : Tca9555 I2C) (polarity_mask : Nat) : Tca9555 I2C × Except E Unit :=
  match bus.write dev.i2c dev.address.addr
      [command.POLARITY_INVERT_PORT_1, polarity_mask % 256] with
  | (s, r) => (Tca9555.mk dev.address s, r)

/-- `Tca9555::write_all`: split the `u16` into `[port1, port0]` big-endian
bytes, write port 0 first (propagating failure via `?`), then port 1. -/
def Tca9555.write_all {I2C E : Type} (bus : WriteCap I2C E)
    (dev : Tca9555 I2C) (value : Nat) : Tca9555 I2C × Except E Unit :=
  match u16_to_be_bytes value with
  | (port1, port0) =>
    match Tca9555.write_port_0 bus dev port0 with
    | (dev1, Except.error e) => (dev1, Except.error e)
    | (dev1, Except.ok _) => Tca9555.write_port_1 bus dev1 port1

/-- An observable bus transaction: either a plain write of some bytes to an
address, or a combined write-then-read with the out bytes and the read
buffer passed in. -/
inductive Transaction where
  | write : Nat → List Nat → Transaction
  | write_read : Nat → List Nat → List Nat → Transaction
deriving DecidableEq, Repr

/-- The 7-bit address a transaction was directed to. -/
def Transaction.addrOf : Transaction → Nat
  | Transaction.write a _ => a
  | Transaction.write_read a _ _ => a

/-- A transport that records every attempted transaction (the bus state is
the list of transactions issued so far, in order) and answers each request
with an oracle that may depend on the history and the request.  Universally
quantifying over the oracle models an arbitrary transport whose issued
transactions are observable. -/
def spyWrite {E : Type} (oracle : List Transaction → Transaction → Except E (List Nat)) :
    WriteCap (List Transaction) E :=
  WriteCap.mk (fun tr a bytes =>
    match oracle tr (Transaction.write a bytes) with
    | Except.error e => (tr ++ [Transaction.write a bytes], Except.error e)
    | Except.ok _ => (tr ++ [Transaction.write a bytes], Except.ok ()))

/-- The write-read half of the recording transport: the oracle's payload is
the buffer contents after the read. -/
def spyWriteRead {E : Type} (oracle : List Transaction → Transaction → Except E (List Nat)) :
    WriteReadCap (List Transaction) E :=
  WriteReadCap.mk (fun tr a out buf =>
    (tr ++ [Transaction.write_read a out buf], oracle tr (Transaction.write_read a out buf)))

/-- Register state of a stub chip whose pins are all outputs with no
polarity inversion: the two output-port registers. -/
structure ChipState where
  port0 : Nat
  port1 : Nat
deriving DecidableEq, Repr

/-- Stub transport, write half: a port write stores the value byte in the
corresponding output register; every transaction succeeds. -/
def stubWrite (E : Type) : WriteCap ChipState E :=
  WriteCap.mk (fun s _ bytes =>
    match bytes with
    | [cmd, value] =>
      if cmd = command.WRITE_PORT_0 then (ChipState.mk value s.port1, Except.ok ())
      else if cmd = command.WRITE_PORT_1 then (ChipState.mk s.port0 value, Except.ok ())
      else (s, Except.ok ())
    | _ => (s, Except.ok ()))

/-- Stub transport, write-read half: a port read echoes the stored output
register (all pins outputs, no inversion); every transaction succeeds. -/
def stubWriteRead (E : Type) : WriteReadCap ChipState E :=
  WriteReadCap.mk (fun s _ out buf =>
    match out with
    | [cmd] =>
      if cmd = command.READ_PORT_0 then (s, Except.ok [s.port0])
      else if cmd = command.READ_PORT_1 then (s, Except.ok [s.port1])
      else (s, Except.ok buf)
    | _ => (s, Except.ok buf))

/-- Behaviour of `read_port_0` on the recording transport: one transaction
is appended (even when the oracle fails) and the result maps the oracle's
answer through `value[0]`. -/
theorem read_port_0_spy_eq {E : Type}
    (oracle : List Transaction → Transaction → Except E (List Nat))
    (tr : List Transaction) (a : DeviceAddr) :
    Tca9555.read_port_0 (spyWriteRead oracle) (Tca9555.mk a tr) =
      (Tca9555.mk a (tr ++ [Transaction.write_read a.addr [command.READ_PORT_0] [0]]),
        (oracle tr (Transaction.write_read a.addr [command.READ_PORT_0] [0])).map
          (fun value => value.headD 0)) := by
  rcases h : oracle tr (Transaction.write_read a.addr [command.READ_PORT_0] [0]) with e | value <;>
    simp [Tca9555.read_port_0, spyWriteRead, h, Except.map]

/-- Behaviour of `read_port_1` on the recording transport. -/
theorem read_port_1_spy_eq {E : Type}
    (oracle : List Transaction → Transaction → Except E (List Nat))
    (tr : List Transaction) (a : DeviceAddr) :
    Tca9555.read_port_1 (spyWriteRead oracle) (Tca9555.mk a tr) =
      (Tca9555.mk a (tr ++ [Transaction.write_read a.addr [command.READ_PORT_1] [0]]),
        (oracle tr (Transaction.write_read a.addr [command.READ_PORT_1] [0])).map
          (fun value => value.headD 0)) := by
  rcases h : oracle tr (Transaction.write_read a.addr [command.READ_PORT_1] [0]) with e | value <;>
    simp [Tca9555.read_port_1, spyWriteRead, h, Except.map]

/-- Behaviour of `write_port_0` on the recording transport. -/
theorem write_port_0_spy_eq {E : Type}
    (oracle : List Transaction → Transaction → Except E (List Nat))
    (tr : List Transaction) (a : DeviceAddr) (v : Nat) :
    Tca9555.write_port_0 (spyWrite oracle) (Tca9555.mk a tr) v =
      (Tca9555.mk a (tr ++ [Transaction.write a.addr [command.WRITE_PORT_0, v % 256]]),
        (oracle tr (Transaction.write a.addr [command.WRITE_PORT_0, v % 256])).map
          (fun _ => ())) := by
  rcases h : oracle tr (Transaction.write a.addr [command.WRITE_PORT_0, v % 256]) with e | u <;>
    simp [Tca9555.write_port_0, spyWrite, h, Except.map]

/-- Behaviour of `write_port_1` on the recording transport. -/
theorem write_port_1_spy_eq {E : Type}
    (oracle : List Transaction → Transaction → Except E (List Nat))
    (tr : List Transaction) (a : DeviceAddr) (v : Nat) :
    Tca9555.write_port_1 (spyWrite oracle) (Tca9555.mk a tr) v =
      (Tca9555.mk a (tr ++ [Transaction.write a.addr [command.WRITE_PORT_1, v % 256]]),
        (oracle tr (Transaction.write a.addr [command.WRITE_PORT_1, v % 256])).map
          (fun _ => ())) := by
  rcases h : oracle tr (Transaction.write a.addr [command.WRITE_PORT_1, v % 256]) with e | u <;>
    simp [Tca9555.write_port_1, spyWrite, h, Except.map]

/-- Behaviour of `set_port_0_direction` on the recording transport. -/
theorem set_port_0_direction_spy_eq {E : Type}
    (oracle : List Transaction → Transaction → Except E (List Nat))
    (tr : List Transaction) (a : DeviceAddr) (v : Nat) :
    Tca9555.set_port_0_direction (spyWrite oracle) (Tca9555.mk a tr) v =
      (Tca9555.mk a (tr ++ [Transaction.write a.addr [command.CONFIGURATION_PORT_0, v % 256]]),
        (oracle tr (Transaction.write a.addr [command.CONFIGURATION_PORT_0, v % 256])).map
          (fun _ => ())) := by
  rcases h : oracle tr (Transaction.write a.addr [command.CONFIGURATION_PORT_0, v % 256]) with e | u <;>
    simp [Tca9555.set_port_0_direction, spyWrite, h, Except.map]

/-- Behaviour of `set_port_1_direction` on the recording transport. -/
theorem set_port_1_direction_spy_eq {E : Type}
    (oracle : List Transaction → Transaction → Except E (List Nat))
    (tr : List Transaction) (a : DeviceAddr) (v : Nat) :
    Tca9555.set_port_1_direction (spyWrite oracle) (Tca9555.mk a tr) v =
      (Tca9555.mk a (tr ++ [Transaction.write a.addr [command.CONFIGURATION_PORT_1, v % 256]]),
        (oracle tr (Transaction.write a.addr [command.CONFIGURATION_PORT_1, v % 256])).map
          (fun _ => ())) := by
  rcases h : oracle tr (Transaction.write a.addr [command.CONFIGURATION_PORT_1, v % 256]) with e | u <;>
    simp [Tca9555.set_port_1_direction, spyWrite, h, Except.map]

/-- Behaviour of `set_port_0_polarity_invert` on the recording transport. -/
theorem set_port_0_polarity_invert_spy_eq {E : Type}
    (oracle : List Transaction → Transaction → Except E (List Nat))
    (tr : List Transaction) (a : DeviceAddr) (v : Nat) :
    Tca9555.set_port_0_polarity_invert (spyWrite oracle) (Tca9555.mk a tr) v =
      (Tca9555.mk a (tr ++ [Transaction.write a.addr [command.POLARITY_INVERT_PORT_0, v % 256]]),
        (oracle tr (Transaction.write a.addr [command.POLARITY_INVERT_PORT_0, v % 256])).map
          (fun _ => ())) := by
  rcases h : oracle tr (Transaction.write a.addr [command.POLARITY_INVERT_PORT_0, v % 256]) with e | u <;>
    simp [Tca9555.set_port_0_polarity_invert, spyWrite, h, Except.map]

/-- Behaviour of `set_port_1_polarity_invert` on the recording transport. -/
theorem set_port_1_polarity_invert_spy_eq {E : Type}
    (oracle : List Transaction → Transaction → Except E (List Nat))
    (tr : List Transaction) (a : DeviceAddr) (v : Nat) :
    Tca9555.set_port_1_polarity_invert (spyWrite oracle) (Tca9555.mk a tr) v =
      (Tca9555.mk a (tr ++ [Transaction.write a.addr [command.POLARITY_INVERT_PORT_1, v % 256]]),
        (oracle tr (Transaction.write a.addr [command.POLARITY_INVERT_PORT_1, v % 256])).map
          (fun _ => ())) := by
  rcases h : oracle tr (Transaction.write a.addr [command.POLARITY_INVERT_PORT_1, v % 256]) with e | u <;>
    simp [Tca9555.set_port_1_polarity_invert, spyWrite, h, Except.map]

/-- Behaviour of `read_all` on the recording transport: the port-0 read is
always attempted; the port-1 read is attempted exactly when the port-0 read
succeeded, and the two returned bytes are composed big-endian. -/
theorem read_all_spy_eq {E : Type}
    (oracle : List Transaction → Transaction → Except E (List Nat))
    (tr : List Transaction) (a : DeviceAddr) :
    Tca9555.read_all (spyWriteRead oracle) (Tca9555.mk a tr) =
      (match oracle tr (Transaction.write_read a.addr [command.READ_PORT_0] [0]) with
       | Except.error e =>
          (Tca9555.mk a (tr ++ [Transaction.write_read a.addr [command.READ_PORT_0] [0]]),
            Except.error e)
       | Except.ok v0 =>
          match oracle (tr ++ [Transaction.write_read a.addr [command.READ_PORT_0] [0]])
              (Transaction.write_read a.addr [command.READ_PORT_1] [0]) with
          | Except.error e =>
              (Tca9555.mk a (tr ++ [Transaction.write_read a.addr [command.READ_PORT_0] [0],
                  Transaction.write_read a.addr [command.READ_PORT_1] [0]]),
                Except.error e)
          | Except.ok v1 =>
              (Tca9555.mk a (tr ++ [Transaction.write_read a.addr [command.READ_PORT_0] [0],
                  Transaction.write_read a.addr [command.READ_PORT_1] [0]]),
                Except.ok (u16_from_be_bytes (v1.headD 0) (v0.headD 0)))) := by
  unfold Tca9555.read_all
  rw [read_port_0_spy_eq]
  rcases h0 : oracle tr (Transaction.write_read a.addr [command.READ_PORT_0] [0]) with e | v0
  · simp [Except.map]
  · simp only [Except.map]
    rw [read_port_1_spy_eq]
    rcases h1 : oracle (tr ++ [Transaction.write_read a.addr [command.READ_PORT_0] [0]])
        (Transaction.write_read a.addr [command.READ_PORT_1] [0]) with e | v1 <;>
      simp [Except.map]

/-- Behaviour of `write_all` on the recording transport: the low-byte write
to port 0 is always attempted; the high-byte write to port 1 is attempted
exactly when the port-0 write succeeded. -/
theorem write_all_spy_eq {E : Type}
    (oracle : List Transaction → Transaction → Except E (List Nat))
    (tr : List Transaction) (a : DeviceAddr) (v : Nat) :
    Tca9555.write_all (spyWrite oracle) (Tca9555.mk a tr) v =
      (match oracle tr (Transaction.write a.addr [command.WRITE_PORT_0, v % 256]) with
       | Except.error e =>
          (Tca9555.mk a (tr ++ [Transaction.write a.addr [command.WRITE_PORT_0, v % 256]]),
            Except.error e)
       | Except.ok _ =>
          (Tca9555.mk a (tr ++ [Transaction.write a.addr [command.WRITE_PORT_0, v % 256],
              Transaction.write a.addr [command.WRITE_PORT_1, (v % 65536) / 256 % 256]]),
            (oracle (tr ++ [Transaction.write a.addr [command.WRITE_PORT_0, v % 256]])
                (Transaction.write a.addr
                  [command.WRITE_PORT_1, (v % 65536) / 256 % 256])).map
              (fun _ => ()))) := by
  simp only [Tca9555.write_all, u16_to_be_bytes]
  have hmod : v % 256 % 256 = v % 256 := Nat.mod_mod_of_dvd v (dvd_refl 256)
  rw [show (Tca9555.write_port_0 (spyWrite oracle) (Tca9555.mk a tr) (v % 256)) =
      (Tca9555.mk a (tr ++ [Transaction.write a.addr [command.WRITE_PORT_0, v % 256]]),
        (oracle tr (Transaction.write a.addr [command.WRITE_PORT_0, v % 256])).map
          (fun _ => ()))
    from by rw [write_port_0_spy_eq, hmod]]
  rcases h0 : oracle tr (Transaction.write a.addr [command.WRITE_PORT_0, v % 256]) with e | u
  · simp [Except.map]
  · simp only [Except.map]
    rw [write_port_1_spy_eq]
    rcases h1 : oracle (tr ++ [Transaction.write a.addr [command.WRITE_PORT_0, v % 256]])
        (Transaction.write a.addr [command.WRITE_PORT_1, (v % 65536) / 256 % 256]) with e | u2 <;>
      simp [h1, Except.map]

/-- No operation mutates the stored address: `read_port_0`. -/
theorem read_port_0_address {I2C E : Type} (bus : WriteReadCap I2C E)
    (dev : Tca9555 I2C) :
    (Tca9555.read_port_0 bus dev).fst.address = dev.address := by
  unfold Tca9555.read_port_0
  rcases bus.write_read dev.i2c dev.address.addr [command.READ_PORT_0] [0] with ⟨s, r⟩
  rcases r with e | value <;> rfl

/-- No operation mutates the stored address: `read_port_1`. -/
theorem read_port_1_address {I2C E : Type} (bus : WriteReadCap I2C E)
    (dev : Tca9555 I2C) :
    (Tca9555.read_port_1 bus dev).fst.address = dev.address := by
  unfold Tca9555.read_port_1
  rcases bus.write_read dev.i2c dev.address.addr [command.READ_PORT_1] [0] with ⟨s, r⟩
  rcases r with e | value <;> rfl

/-- No operation mutates the stored address: `read_all`. -/
theorem read_all_address {I2C E : Type} (bus : WriteReadCap I2C E)
    (dev : Tca9555 I2C) :
    (Tca9555.read_all bus dev).fst.address = dev.address := by
  unfold Tca9555.read_all
  have h0 := read_port_0_address bus dev
  rcases hp : Tca9555.read_port_0 bus dev with ⟨dev1, r0⟩
  rw [hp] at h0
  rcases r0 with e | port0
  · exact h0
  · show (match Tca9555.read_port_1 bus dev1 with
        | (dev2, Except.error e) => (dev2, Except.error e)
        | (dev2, Except.ok port1) =>
            (dev2, Except.ok (u16_from_be_bytes port1 port0))).1.address = dev.address
    have h1 := read_port_1_address bus dev1
    rcases hq : Tca9555.read_port_1 bus dev1 with ⟨dev2, r1⟩
    rw [hq] at h1
    rcases r1 with e | port1 <;> exact h1.trans h0

/-- No operation mutates the stored address: `write_port_0`. -/
theorem write_port_0_address {I2C E : Type} (bus : WriteCap I2C E)
    (dev : Tca9555 I2C) (v : Nat) :
    (Tca9555.write_port_0 bus dev v).fst.address = dev.address := by
  unfold Tca9555.write_port_0
  rcases bus.write dev.i2c dev.address.addr [command.WRITE_PORT_0, v % 256] with ⟨s, r⟩
  rfl

/-- No operation mutates the stored address: `write_port_1`. -/
theorem write_port_1_address {I2C E : Type} (bus : WriteCap I2C E)
    (dev : Tca9555 I2C) (v : Nat) :
    (Tca9555.write_port_1 bus dev v).fst.address = dev.address := by
  unfold Tca9555.write_port_1
  rcases bus.write dev.i2c dev.address.addr [command.WRITE_PORT_1, v % 256] with ⟨s, r⟩
  rfl

/-- No operation mutates the stored address: `set_port_0_direction`. -/
theorem set_port_0_direction_address {I2C E : Type} (bus : WriteCap I2C E)
    (dev : Tca9555 I2C) (v : Nat) :
    (Tca9555.set_port_0_direction bus dev v).fst.address = dev.address := by
  unfold Tca9555.set_port_0_direction
  rcases bus.write dev.i2c dev.address.addr [command.CONFIGURATION_PORT_0, v % 256] with ⟨s, r⟩
  rfl

/-- No operation mutates the stored address: `set_port_1_direction`. -/
theorem set_port_1_direction_address {I2C E : Type} (bus : WriteCap I2C E)
    (dev : Tca9555 I2C) (v : Nat) :
    (Tca9555.set_port_1_direction bus dev v).fst.address = dev.address := by
  unfold Tca9555.set_port_1_direction
  rcases bus.write dev.i2c dev.address.addr [command.CONFIGURATION_PORT_1, v % 256] with ⟨s, r⟩
  rfl

/-- No operation mutates the stored address: `set_port_0_polarity_invert`. -/
theorem set_port_0_polarity_invert_address {I2C E : Type} (bus : WriteCap I2C E)
    (dev : Tca9555 I2C) (v : Nat) :
    (Tca9555.set_port_0_polarity_invert bus dev v).fst.address = dev.address := by
  unfold Tca9555.set_port_0_polarity_invert
  rcases bus.write dev.i2c dev.address.addr [command.POLARITY_INVERT_PORT_0, v % 256] with ⟨s, r⟩
  rfl

/-- No operation mutates the stored address: `set_port_1_polarity_invert`. -/
theorem set_port_1_polarity_invert_address {I2C E : Type} (bus : WriteCap I2C E)
    (dev : Tca9555 I2C) (v : Nat) :
    (Tca9555.set_port_1_polarity_invert bus dev v).fst.address = dev.address := by
  unfold Tca9555.set_port_1_polarity_invert
  rcases bus.write dev.i2c dev.address.addr [command.POLARITY_INVERT_PORT_1, v % 256] with ⟨s, r⟩
  rfl

/-- No operation mutates the stored address: `write_all`. -/
theorem write_all_address {I2C E : Type} (bus : WriteCap I2C E)
    (dev : Tca9555 I2C) (v : Nat) :
    (Tca9555.write_all bus dev v).fst.address = dev.address := by
  simp only [Tca9555.write_all, u16_to_be_bytes]
  have h0 := write_port_0_address bus dev (v % 256)
  rcases hp : Tca9555.write_port_0 bus dev (v % 256) with ⟨dev1, r0⟩
  rw [hp] at h0
  rcases r0 with e | u
  · exact h0
  · exact (write_port_1_address bus dev1 ((v % 65536) / 256)).trans h0

/-- One high-level driver call, used to talk about arbitrary sequences of
operations. -/
inductive DriverOp where
  | read_port_0 : DriverOp
  | read_port_1 : DriverOp
  | read_all : DriverOp
  | write_port_0 : Nat → DriverOp
  | write_port_1 : Nat → DriverOp
  | set_port_0_direction : Nat → DriverOp
  | set_port_1_direction : Nat → DriverOp
  | set_port_0_polarity_invert : Nat → DriverOp
  | set_port_1_polarity_invert : Nat → DriverOp
  | write_all : Nat → DriverOp

/-- Execute one driver call, keeping the resulting driver state. -/
def runOp {I2C E : Type} (rbus : WriteReadCap I2C E) (wbus : WriteCap I2C E)
    (dev : Tca9555 I2C) : DriverOp → Tca9555 I2C
  | DriverOp.read_port_0 => (Tca9555.read_port_0 rbus dev).fst
  | DriverOp.read_port_1 => (Tca9555.read_port_1 rbus dev).fst
  | DriverOp.read_all => (Tca9555.read_all rbus dev).fst
  | DriverOp.write_port_0 v => (Tca9555.write_port_0 wbus dev v).fst
  | DriverOp.write_port_1 v => (Tca9555.write_port_1 wbus dev v).fst
  | DriverOp.set_port_0_direction v => (Tca9555.set_port_0_direction wbus dev v).fst
  | DriverOp.set_port_1_direction v => (Tca9555.set_port_1_direction wbus dev v).fst
  | DriverOp.set_port_0_polarity_invert v =>
      (Tca9555.set_port_0_polarity_invert wbus dev v).fst
  | DriverOp.set_port_1_polarity_invert v =>
      (Tca9555.set_port_1_polarity_invert wbus dev v).fst
  | DriverOp.write_all v => (Tca9555.write_all wbus dev v).fst

/-- Execute a sequence of driver calls. -/
def runOps {I2C E : Type} (rbus : WriteReadCap I2C E) (wbus : WriteCap I2C E)
    (dev : Tca9555 I2C) : List DriverOp → Tca9555 I2C
  | [] => dev
  | op :: ops => runOps rbus wbus (runOp rbus wbus dev op) ops

/-- A single driver call never changes the stored address. -/
theorem runOp_address {I2C E : Type} (rbus : WriteReadCap I2C E)
    (wbus : WriteCap I2C E) (dev : Tca9555 I2C) (op : DriverOp) :
    (runOp rbus wbus dev op).address = dev.address := by
  rcases op with _ | _ | _ | v | v | v | v | v | v | v <;>
    simp only [runOp] <;>
    first
      | exact read_port_0_address rbus dev
      | exact read_port_1_address rbus dev
      | exact read_all_address rbus dev
      | exact write_port_0_address wbus dev v
      | exact write_port_1_address wbus dev v
      | exact set_port_0_direction_address wbus dev v
      | exact set_port_1_direction_address wbus dev v
      | exact set_port_0_polarity_invert_address wbus dev v
      | exact set_port_1_polarity_invert_address wbus dev v
      | exact write_all_address wbus dev v

/-- A sequence of driver calls never changes the stored address. -/
theorem runOps_address {I2C E : Type} (rbus : WriteReadCap I2C E)
    (wbus : WriteCap I2C E) (dev : Tca9555 I2C) (ops : List DriverOp) :
    (runOps rbus wbus dev ops).address = dev.address := by
  induction ops generalizing dev with
  | nil => rfl
  | cons op ops ih =>
      exact (ih (runOp rbus wbus dev op)).trans (runOp_address rbus wbus dev op)

/-- Composing a high and a low byte with shift and bitwise or is plain
base-256 arithmetic when the low byte is in range. -/
theorem shiftLeft8_lor_eq (hi lo : Nat) (h : lo < 256) :
    (hi <<< 8) ||| lo = hi * 256 + lo := by
  have h2 : lo < 2 ^ 8 := h
  calc (hi <<< 8) ||| lo = 2 ^ 8 * hi ||| lo := by
        rw [Nat.shiftLeft_eq, Nat.mul_comm]
    _ = 2 ^ 8 * hi + lo := (Nat.mul_add_lt_is_or h2 hi).symm
    _ = hi * 256 + lo := by rw [Nat.mul_comm]

/-- C1: for every triple of strap booleans, `DeviceAddr::Alternative(A0, A1,
A2).addr()` is exactly `0x20 ||| (A0 ? 1 : 0) ||| (A1 ? 2 : 0) ||| (A2 ? 4 :
0)`; in particular `(false,false,false)` gives `0x20`, `(true,false,false)`
gives `0x21`, and `(false,true,true)` gives `0x26`. -/
theorem C1_alternative_address_formula :
    (∀ a0 a1 a2 : Bool,
      (DeviceAddr.Alternative a0 a1 a2).addr =
        0x20 ||| (cond a0 1 0) ||| (cond a1 2 0) ||| (cond a2 4 0)) ∧
    (DeviceAddr.Alternative false false false).addr = 0x20 ∧
    (DeviceAddr.Alternative true false false).addr = 0x21 ∧
    (DeviceAddr.Alternative false true true).addr = 0x26 := by
  refine ⟨?_, by decide, by decide, by decide⟩
  decide

/-- C2: each named operation sends, as the first byte of its bus
transaction, exactly the command byte from the register map (0x00 Read
Port 0, 0x01 Read Port 1, 0x02 Write Port 0, 0x03 Write Port 1, 0x04
Polarity Invert Port 0, 0x05 Polarity Invert Port 1, 0x06 Configuration
Port 0, 0x07 Configuration Port 1).  Stated on the recording transport
with an arbitrary response oracle: the one transaction each operation
appends starts with the mapped command byte. -/
theorem C2_command_bytes (E : Type)
    (oracle : List Transaction → Transaction → Except E (List Nat))
    (tr : List Transaction) (a : DeviceAddr) (v : Nat) :
    (Tca9555.read_port_0 (spyWriteRead oracle) (Tca9555.mk a tr)).fst.i2c
        = tr ++ [Transaction.write_read a.addr [0x00] [0]] ∧
    (Tca9555.read_port_1 (spyWriteRead oracle) (Tca9555.mk a tr)).fst.i2c
        = tr ++ [Transaction.write_read a.addr [0x01] [0]] ∧
    (Tca9555.write_port_0 (spyWrite oracle) (Tca9555.mk a tr) v).fst.i2c
        = tr ++ [Transaction.write a.addr [0x02, v % 256]] ∧
    (Tca9555.write_port_1 (spyWrite oracle) (Tca9555.mk a tr) v).fst.i2c
        = tr ++ [Transaction.write a.addr [0x03, v % 256]] ∧
    (Tca9555.set_port_0_polarity_invert (spyWrite oracle) (Tca9555.mk a tr) v).fst.i2c
        = tr ++ [Transaction.write a.addr [0x04, v % 256]] ∧
    (Tca9555.set_port_1_polarity_invert (spyWrite oracle) (Tca9555.mk a tr) v).fst.i2c
        = tr ++ [Transaction.write a.addr [0x05, v % 256]] ∧
    (Tca9555.set_port_0_direction (spyWrite oracle) (Tca9555.mk a tr) v).fst.i2c
        = tr ++ [Transaction.write a.addr [0x06, v % 256]] ∧
    (Tca9555.set_port_1_direction (spyWrite oracle) (Tca9555.mk a tr) v).fst.i2c
        = tr ++ [Transaction.write a.addr [0x07, v % 256]] := by
  refine ⟨?_, ?_, ?_, ?_, ?_, ?_, ?_, ?_⟩ <;>
    simp [read_port_0_spy_eq, read_port_1_spy_eq, write_port_0_spy_eq,
      write_port_1_spy_eq, set_port_0_direction_spy_eq, set_port_1_direction_spy_eq,
      set_port_0_polarity_invert_spy_eq, set_port_1_polarity_invert_spy_eq,
      command.READ_PORT_0, command.READ_PORT_1, command.WRITE_PORT_0,
      command.WRITE_PORT_1, command.POLARITY_INVERT_PORT_0,
      command.POLARITY_INVERT_PORT_1, command.CONFIGURATION_PORT_0,
      command.CONFIGURATION_PORT_1]

/-- C3: when both port reads succeed with bytes `b0` and `b1`, `read_all`
issues exactly two write-then-read transactions, the port-0 read first and
the port-1 read second, and returns `(b1 <<< 8) ||| b0`. -/
theorem C3_read_all_two_reads (E : Type)
    (oracle : List Transaction → Transaction → Except E (List Nat))
    (tr : List Transaction) (a : DeviceAddr) (b0 b1 : Nat)
    (hb0 : b0 < 256) (hb1 : b1 < 256)
    (h0 : oracle tr (Transaction.write_read a.addr [0x00] [0]) = Except.ok [b0])
    (h1 : oracle (tr ++ [Transaction.write_read a.addr [0x00] [0]])
        (Transaction.write_read a.addr [0x01] [0]) = Except.ok [b1]) :
    Tca9555.read_all (spyWriteRead oracle) (Tca9555.mk a tr) =
      (Tca9555.mk a (tr ++ [Transaction.write_read a.addr [0x00] [0],
          Transaction.write_read a.addr [0x01] [0]]),
        Except.ok ((b1 <<< 8) ||| b0)) := by
  have hcompose : u16_from_be_bytes b1 b0 = (b1 <<< 8) ||| b0 := by
    rw [shiftLeft8_lor_eq b1 b0 hb0, u16_from_be_bytes,
      Nat.mod_eq_of_lt hb0, Nat.mod_eq_of_lt hb1]
  rw [read_all_spy_eq]
  simp only [command.READ_PORT_0, command.READ_PORT_1, h0, h1, List.headD, hcompose]

/-- The claim hypotheses of `C3_read_all_two_reads` hold concretely: an
oracle answering `5` to the first read and `7` to the second. -/
def oracleC3 : List Transaction → Transaction → Except Nat (List Nat) :=
  fun tr _ => if tr.length = 0 then Except.ok [5] else Except.ok [7]

/-- Witness for C3 at a concrete oracle and the default address. -/
theorem C3_witness :
    ((5 : Nat) < 256 ∧ (7 : Nat) < 256 ∧
      oracleC3 [] (Transaction.write_read 0x20 [0x00] [0]) = Except.ok [5] ∧
      oracleC3 [Transaction.write_read 0x20 [0x00] [0]]
        (Transaction.write_read 0x20 [0x01] [0]) = Except.ok [7]) ∧
    Tca9555.read_all (spyWriteRead oracleC3) (Tca9555.mk DeviceAddr.Default []) =
      (Tca9555.mk DeviceAddr.Default [Transaction.write_read 0x20 [0x00] [0],
          Transaction.write_read 0x20 [0x01] [0]],
        Except.ok 0x0705) := by
  refine ⟨⟨by norm_num, by norm_num, rfl, rfl⟩, ?_⟩
  have h := C3_read_all_two_reads Nat oracleC3 [] DeviceAddr.Default 5 7
    (by norm_num) (by norm_num) rfl rfl
  simpa using h

/-- C4: for a 16-bit `v`, once the port-0 write is accepted, `write_all v`
issues exactly two write transactions: first the low byte of `v` under
command 0x02, then the high byte under command 0x03. -/
theorem C4_write_all_two_writes (E : Type)
    (oracle : List Transaction → Transaction → Except E (List Nat))
    (tr : List Transaction) (a : DeviceAddr) (v : Nat) (bs : List Nat)
    (hv : v < 65536)
    (h0 : oracle tr (Transaction.write a.addr [0x02, v % 256]) = Except.ok bs) :
    (Tca9555.write_all (spyWrite oracle) (Tca9555.mk a tr) v).fst.i2c =
      tr ++ [Transaction.write a.addr [0x02, v % 256],
        Transaction.write a.addr [0x03, v / 256]] := by
  have hmod : (v % 65536) / 256 % 256 = v / 256 := by omega
  rw [write_all_spy_eq]
  simp only [command.WRITE_PORT_0, command.WRITE_PORT_1, hmod, h0]

/-- An oracle that accepts every transaction, used by witnesses. -/
def oracleOk : List Transaction → Transaction → Except Nat (List Nat) :=
  fun _ _ => Except.ok []

/-- Witness for C4: writing 0xABCD issues the low-byte write 0xCD to port 0
and then the high-byte write 0xAB to port 1. -/
theorem C4_witness :
    ((43981 : Nat) < 65536 ∧
      oracleOk [] (Transaction.write 0x20 [0x02, 205]) = Except.ok []) ∧
    (Tca9555.write_all (spyWrite oracleOk) (Tca9555.mk DeviceAddr.Default []) 43981).fst.i2c =
      [Transaction.write 0x20 [0x02, 205], Transaction.write 0x20 [0x03, 171]] := by
  refine ⟨⟨by norm_num, rfl⟩, ?_⟩
  have h := C4_write_all_two_writes Nat oracleOk [] DeviceAddr.Default 43981 []
    (by norm_num) rfl
  simpa using h

/-- Mapping a pure function over an `Except` neither introduces nor removes
an error, and leaves the error value untouched. -/
theorem map_error_iff {E A B : Type} (f : A → B) (r : Except E A) (e : E) :
    r.map f = Except.error e ↔ r = Except.error e := by
  rcases r with e2 | x <;> simp [Except.map]

/-- C5: each operation fails exactly when an underlying transport call
fails, the propagated error value is the transport's error unchanged, and
once a transport call fails no further transaction is attempted inside the
same operation.  For the eight single-transaction operations this is a
plain fails-iff; for `read_all` and `write_all` the fails-iff covers a
failure of either of the two calls, and the two conditional equations per
operation show the exact transactions attempted when the first call fails
(one transaction) and when the first succeeds but the second fails (two
transactions, then stop). -/
theorem C5_error_propagation (E : Type) (e : E)
    (oracle : List Transaction → Transaction → Except E (List Nat))
    (tr : List Transaction) (a : DeviceAddr) (v : Nat) :
    ((Tca9555.read_port_0 (spyWriteRead oracle) (Tca9555.mk a tr)).snd = Except.error e
      ↔ oracle tr (Transaction.write_read a.addr [command.READ_PORT_0] [0])
          = Except.error e) ∧
    ((Tca9555.read_port_1 (spyWriteRead oracle) (Tca9555.mk a tr)).snd = Except.error e
      ↔ oracle tr (Transaction.write_read a.addr [command.READ_PORT_1] [0])
          = Except.error e) ∧
    ((Tca9555.write_port_0 (spyWrite oracle) (Tca9555.mk a tr) v).snd = Except.error e
      ↔ oracle tr (Transaction.write a.addr [command.WRITE_PORT_0, v % 256])
          = Except.error e) ∧
    ((Tca9555.write_port_1 (spyWrite oracle) (Tca9555.mk a tr) v).snd = Except.error e
      ↔ oracle tr (Transaction.write a.addr [command.WRITE_PORT_1, v % 256])
          = Except.error e) ∧
    ((Tca9555.set_port_0_direction (spyWrite oracle) (Tca9555.mk a tr) v).snd
        = Except.error e
      ↔ oracle tr (Transaction.write a.addr [command.CONFIGURATION_PORT_0, v % 256])
          = Except.error e) ∧
    ((Tca9555.set_port_1_direction (spyWrite oracle) (Tca9555.mk a tr) v).snd
        = Except.error e
      ↔ oracle tr (Transaction.write a.addr [command.CONFIGURATION_PORT_1, v % 256])
          = Except.error e) ∧
    ((Tca9555.set_port_0_polarity_invert (spyWrite oracle) (Tca9555.mk a tr) v).snd
        = Except.error e
      ↔ oracle tr (Transaction.write a.addr [command.POLARITY_INVERT_PORT_0, v % 256])
          = Except.error e) ∧
    ((Tca9555.set_port_1_polarity_invert (spyWrite oracle) (Tca9555.mk a tr) v).snd
        = Except.error e
      ↔ oracle tr (Transaction.write a.addr [command.POLARITY_INVERT_PORT_1, v % 256])
          = Except.error e) ∧
    ((Tca9555.read_all (spyWriteRead oracle) (Tca9555.mk a tr)).snd = Except.error e
      ↔ (oracle tr (Transaction.write_read a.addr [command.READ_PORT_0] [0])
            = Except.error e ∨
         ∃ bs : List Nat,
           oracle tr (Transaction.write_read a.addr [command.READ_PORT_0] [0])
              = Except.ok bs ∧
           oracle (tr ++ [Transaction.write_read a.addr [command.READ_PORT_0] [0]])
              (Transaction.write_read a.addr [command.READ_PORT_1] [0])
              = Except.error e)) ∧
    (oracle tr (Transaction.write_read a.addr [command.READ_PORT_0] [0])
        = Except.error e →
      Tca9555.read_all (spyWriteRead oracle) (Tca9555.mk a tr) =
        (Tca9555.mk a (tr ++ [Transaction.write_read a.addr [command.READ_PORT_0] [0]]),
          Except.error e)) ∧
    (∀ bs : List Nat,
      oracle tr (Transaction.write_read a.addr [command.READ_PORT_0] [0])
          = Except.ok bs →
      oracle (tr ++ [Transaction.write_read a.addr [command.READ_PORT_0] [0]])
          (Transaction.write_read a.addr [command.READ_PORT_1] [0])
          = Except.error e →
      Tca9555.read_all (spyWriteRead oracle) (Tca9555.mk a tr) =
        (Tca9555.mk a (tr ++ [Transaction.write_read a.addr [command.READ_PORT_0] [0],
            Transaction.write_read a.addr [command.READ_PORT_1] [0]]),
          Except.error e)) ∧
    ((Tca9555.write_all (spyWrite oracle) (Tca9555.mk a tr) v).snd = Except.error e
      ↔ (oracle tr (Transaction.write a.addr [command.WRITE_PORT_0, v % 256])
            = Except.error e ∨
         ∃ bs : List Nat,
           oracle tr (Transaction.write a.addr [command.WRITE_PORT_0, v % 256])
              = Except.ok bs ∧
           oracle (tr ++ [Transaction.write a.addr [command.WRITE_PORT_0, v % 256]])
              (Transaction.write a.addr [command.WRITE_PORT_1, (v % 65536) / 256 % 256])
              = Except.error e)) ∧
    (oracle tr (Transaction.write a.addr [command.WRITE_PORT_0, v % 256])
        = Except.error e →
      Tca9555.write_all (spyWrite oracle) (Tca9555.mk a tr) v =
        (Tca9555.mk a (tr ++ [Transaction.write a.addr [command.WRITE_PORT_0, v % 256]]),
          Except.error e)) ∧
    (∀ bs : List Nat,
      oracle tr (Transaction.write a.addr [command.WRITE_PORT_0, v % 256])
          = Except.ok bs →
      oracle (tr ++ [Transaction.write a.addr [command.WRITE_PORT_0, v % 256]])
          (Transaction.write a.addr [command.WRITE_PORT_1, (v % 65536) / 256 % 256])
          = Except.error e →
      Tca9555.write_all (spyWrite oracle) (Tca9555.mk a tr) v =
        (Tca9555.mk a (tr ++ [Transaction.write a.addr [command.WRITE_PORT_0, v % 256],
            Transaction.write a.addr [command.WRITE_PORT_1, (v % 65536) / 256 % 256]]),
          Except.error e)) := by
  refine ⟨?_, ?_, ?_, ?_, ?_, ?_, ?_, ?_, ?_, ?_, ?_, ?_, ?_, ?_⟩
  · rw [read_port_0_spy_eq]; exact map_error_iff _ _ e
  · rw [read_port_1_spy_eq]; exact map_error_iff _ _ e
  · rw [write_port_0_spy_eq]; exact map_error_iff _ _ e
  · rw [write_port_1_spy_eq]; exact map_error_iff _ _ e
  · rw [set_port_0_direction_spy_eq]; exact map_error_iff _ _ e
  · rw [set_port_1_direction_spy_eq]; exact map_error_iff _ _ e
  · rw [set_port_0_polarity_invert_spy_eq]; exact map_error_iff _ _ e
  · rw [set_port_1_polarity_invert_spy_eq]; exact map_error_iff _ _ e
  · rw [read_all_spy_eq]
    rcases h0 : oracle tr (Transaction.write_read a.addr [command.READ_PORT_0] [0])
      with e0 | v0
    · simp [h0]
    · rcases h1 : oracle (tr ++ [Transaction.write_read a.addr [command.READ_PORT_0] [0]])
          (Transaction.write_read a.addr [command.READ_PORT_1] [0]) with e1 | v1 <;>
        simp [h0, h1]
  · intro h
    rw [read_all_spy_eq]
    simp only [h]
  · intro bs h0 h1
    rw [read_all_spy_eq]
    simp only [h0, h1]
  · rw [write_all_spy_eq]
    rcases h0 : oracle tr (Transaction.write a.addr [command.WRITE_PORT_0, v % 256])
      with e0 | u0
    · simp [h0]
    · rcases h1 : oracle (tr ++ [Transaction.write a.addr [command.WRITE_PORT_0, v % 256]])
          (Transaction.write a.addr [command.WRITE_PORT_1, (v % 65536) / 256 % 256])
        with e1 | u1 <;>
        simp [h0, h1, Except.map]
  · intro h
    rw [write_all_spy_eq]
    simp only [h]
  · intro bs h0 h1
    rw [write_all_spy_eq]
    simp only [h0, h1, Except.map]

/-- An oracle that rejects every transaction with error value 3, used by
the C5 witness. -/
def oracleFail : List Transaction → Transaction → Except Nat (List Nat) :=
  fun _ _ => Except.error 3

/-- An oracle that accepts the first transaction with payload `[5]` and
rejects every later one with error value 4, used by the C5 witness to
exercise the second-call-failure branch of `read_all`. -/
def oracleC5b : List Transaction → Transaction → Except Nat (List Nat) :=
  fun tr _ => if tr.length = 0 then Except.ok [5] else Except.error 4

/-- An oracle that accepts the first transaction and rejects the second
with error value 9, used by the C5 and C6 witnesses. -/
def oracleC6 : List Transaction → Transaction → Except Nat (List Nat) :=
  fun tr _ => if tr.length = 0 then Except.ok [] else Except.error 9

/-- Witness for C5: a transport failing with error 3 makes `read_port_0`
fail with error 3 and stops `read_all` and `write_all` after one
transaction; a transport whose second call fails makes `read_all`
propagate error 4 after exactly two reads and `write_all` propagate
error 9 after exactly two writes. -/
theorem C5_witness :
    ((Tca9555.read_port_0 (spyWriteRead oracleFail)
        (Tca9555.mk DeviceAddr.Default [])).snd = Except.error 3) ∧
    (oracleFail [] (Transaction.write_read 0x20 [0x00] [0]) = Except.error 3) ∧
    Tca9555.read_all (spyWriteRead oracleFail) (Tca9555.mk DeviceAddr.Default []) =
      (Tca9555.mk DeviceAddr.Default [Transaction.write_read 0x20 [0x00] [0]],
        Except.error 3) ∧
    Tca9555.write_all (spyWrite oracleFail) (Tca9555.mk DeviceAddr.Default []) 43981 =
      (Tca9555.mk DeviceAddr.Default [Transaction.write 0x20 [0x02, 205]],
        Except.error 3) ∧
    (oracleC5b [] (Transaction.write_read 0x20 [0x00] [0]) = Except.ok [5] ∧
      oracleC5b [Transaction.write_read 0x20 [0x00] [0]]
        (Transaction.write_read 0x20 [0x01] [0]) = Except.error 4) ∧
    Tca9555.read_all (spyWriteRead oracleC5b) (Tca9555.mk DeviceAddr.Default []) =
      (Tca9555.mk DeviceAddr.Default [Transaction.write_read 0x20 [0x00] [0],
          Transaction.write_read 0x20 [0x01] [0]],
        Except.error 4) ∧
    Tca9555.write_all (spyWrite oracleC6) (Tca9555.mk DeviceAddr.Default []) 513 =
      (Tca9555.mk DeviceAddr.Default [Transaction.write 0x20 [0x02, 1],
          Transaction.write 0x20 [0x03, 2]],
        Except.error 9) := by
  obtain ⟨p1, -, -, -, -, -, -, -, -, q2, -, -, r2, -⟩ :=
    C5_error_propagation Nat 3 oracleFail [] DeviceAddr.Default 43981
  obtain ⟨-, -, -, -, -, -, -, -, -, -, q3, -, -, -⟩ :=
    C5_error_propagation Nat 4 oracleC5b [] DeviceAddr.Default 0
  obtain ⟨-, -, -, -, -, -, -, -, -, -, -, -, -, r3⟩ :=
    C5_error_propagation Nat 9 oracleC6 [] DeviceAddr.Default 513
  exact ⟨p1.mpr rfl, rfl, q2 rfl, r2 rfl, ⟨rfl, rfl⟩, q3 [5] (by rfl) (by rfl),
    r3 [] (by rfl) (by rfl)⟩

/-- C6: if the port-0 write of `write_all v` is accepted and the port-1
write fails, the operation reports that failure, the port-0 write with the
low byte of `v` has already been issued, and no further write to port 0
occurs within the operation (the trace gains exactly those two writes). -/
theorem C6_no_rollback (E : Type) (e : E)
    (oracle : List Transaction → Transaction → Except E (List Nat))
    (tr : List Transaction) (a : DeviceAddr) (v : Nat) (bs : List Nat)
    (hv : v < 65536)
    (h0 : oracle tr (Transaction.write a.addr [0x02, v % 256]) = Except.ok bs)
    (h1 : oracle (tr ++ [Transaction.write a.addr [0x02, v % 256]])
        (Transaction.write a.addr [0x03, v / 256]) = Except.error e) :
    Tca9555.write_all (spyWrite oracle) (Tca9555.mk a tr) v =
      (Tca9555.mk a (tr ++ [Transaction.write a.addr [0x02, v % 256],
          Transaction.write a.addr [0x03, v / 256]]),
        Except.error e) := by
  have hmod : (v % 65536) / 256 % 256 = v / 256 := by omega
  rw [write_all_spy_eq]
  simp only [command.WRITE_PORT_0, command.WRITE_PORT_1, hmod, h0, h1, Except.map]

/-- Witness for C6 at value 0xABCD: the low-byte write is issued and kept,
the high-byte write fails with error 9, and that error is reported. -/
theorem C6_witness :
    ((43981 : Nat) < 65536 ∧
      oracleC6 [] (Transaction.write 0x20 [0x02, 205]) = Except.ok [] ∧
      oracleC6 [Transaction.write 0x20 [0x02, 205]]
        (Transaction.write 0x20 [0x03, 171]) = Except.error 9) ∧
    Tca9555.write_all (spyWrite oracleC6) (Tca9555.mk DeviceAddr.Default []) 43981 =
      (Tca9555.mk DeviceAddr.Default [Transaction.write 0x20 [0x02, 205],
          Transaction.write 0x20 [0x03, 171]],
        Except.error 9) := by
  refine ⟨⟨by norm_num, rfl, rfl⟩, ?_⟩
  have h := C6_no_rollback Nat 9 oracleC6 [] DeviceAddr.Default 43981 []
    (by norm_num) rfl rfl
  simpa using h

/-- C7: round trip against the stub transport that echoes written register
state (all pins outputs, no polarity inversion): `write_all v` succeeds,
and a subsequent `read_all` succeeds returning exactly `v`. -/
theorem C7_roundtrip (E : Type) (v : Nat) (hv : v < 65536) (a : DeviceAddr)
    (s : ChipState) :
    (Tca9555.write_all (stubWrite E) (Tca9555.mk a s) v).snd = Except.ok () ∧
    (Tca9555.read_all (stubWriteRead E)
        (Tca9555.write_all (stubWrite E) (Tca9555.mk a s) v).fst).snd
      = Except.ok v := by
  have hmod : v % 65536 = v := Nat.mod_eq_of_lt hv
  refine ⟨?_, ?_⟩
  · simp [Tca9555.write_all, Tca9555.write_port_0, Tca9555.write_port_1,
      u16_to_be_bytes, stubWrite, command.WRITE_PORT_0, command.WRITE_PORT_1]
  · simp [Tca9555.write_all, Tca9555.write_port_0, Tca9555.write_port_1,
      Tca9555.read_all, Tca9555.read_port_0, Tca9555.read_port_1,
      u16_to_be_bytes, u16_from_be_bytes, stubWrite, stubWriteRead,
      command.READ_PORT_0, command.READ_PORT_1, command.WRITE_PORT_0,
      command.WRITE_PORT_1, hmod]
    omega

/-- Witness for C7 at value 0xABCD from a zeroed chip. -/
theorem C7_witness :
    ((43981 : Nat) < 65536) ∧
    (Tca9555.write_all (stubWrite Nat)
        (Tca9555.mk DeviceAddr.Default (ChipState.mk 0 0)) 43981).snd
      = Except.ok () ∧
    (Tca9555.read_all (stubWriteRead Nat)
        (Tca9555.write_all (stubWrite Nat)
          (Tca9555.mk DeviceAddr.Default (ChipState.mk 0 0)) 43981).fst).snd
      = Except.ok 43981 := by
  have h := C7_roundtrip Nat 43981 (by norm_num) DeviceAddr.Default (ChipState.mk 0 0)
  exact ⟨by norm_num, h.1, h.2⟩

/-- C8: `DeviceAddr::Default` resolves to the same 7-bit address as
`DeviceAddr::Alternative(false, false, false)`, namely 0x20, and drivers
constructed with the two selections are observably identical on the bus:
on the recording transport, for every oracle and starting trace, every
operation produces the same transactions and the same result for both. -/
theorem C8_default_equals_explicit_false (E : Type)
    (oracle : List Transaction → Transaction → Except E (List Nat))
    (tr : List Transaction) (v : Nat) :
    DeviceAddr.Default.addr = (DeviceAddr.Alternative false false false).addr ∧
    DeviceAddr.Default.addr = 0x20 ∧
    ((Tca9555.read_port_0 (spyWriteRead oracle) (Tca9555.mk DeviceAddr.Default tr)).fst.i2c,
      (Tca9555.read_port_0 (spyWriteRead oracle) (Tca9555.mk DeviceAddr.Default tr)).snd)
      = ((Tca9555.read_port_0 (spyWriteRead oracle)
            (Tca9555.mk (DeviceAddr.Alternative false false false) tr)).fst.i2c,
        (Tca9555.read_port_0 (spyWriteRead oracle)
            (Tca9555.mk (DeviceAddr.Alternative false false false) tr)).snd) ∧
    ((Tca9555.read_port_1 (spyWriteRead oracle) (Tca9555.mk DeviceAddr.Default tr)).fst.i2c,
      (Tca9555.read_port_1 (spyWriteRead oracle) (Tca9555.mk DeviceAddr.Default tr)).snd)
      = ((Tca9555.read_port_1 (spyWriteRead oracle)
            (Tca9555.mk (DeviceAddr.Alternative false false false) tr)).fst.i2c,
        (Tca9555.read_port_1 (spyWriteRead oracle)
            (Tca9555.mk (DeviceAddr.Alternative false false false) tr)).snd) ∧
    ((Tca9555.read_all (spyWriteRead oracle) (Tca9555.mk DeviceAddr.Default tr)).fst.i2c,
      (Tca9555.read_all (spyWriteRead oracle) (Tca9555.mk DeviceAddr.Default tr)).snd)
      = ((Tca9555.read_all (spyWriteRead oracle)
            (Tca9555.mk (DeviceAddr.Alternative false false false) tr)).fst.i2c,
        (Tca9555.read_all (spyWriteRead oracle)
            (Tca9555.mk (DeviceAddr.Alternative false false false) tr)).snd) ∧
    ((Tca9555.write_port_0 (spyWrite oracle) (Tca9555.mk DeviceAddr.Default tr) v).fst.i2c,
      (Tca9555.write_port_0 (spyWrite oracle) (Tca9555.mk DeviceAddr.Default tr) v).snd)
      = ((Tca9555.write_port_0 (spyWrite oracle)
            (Tca9555.mk (DeviceAddr.Alternative false false false) tr) v).fst.i2c,
        (Tca9555.write_port_0 (spyWrite oracle)
            (Tca9555.mk (DeviceAddr.Alternative false false false) tr) v).snd) ∧
    ((Tca9555.write_port_1 (spyWrite oracle) (Tca9555.mk DeviceAddr.Default tr) v).fst.i2c,
      (Tca9555.write_port_1 (spyWrite oracle) (Tca9555.mk DeviceAddr.Default tr) v).snd)
      = ((Tca9555.write_port_1 (spyWrite oracle)
            (Tca9555.mk (DeviceAddr.Alternative false false false) tr) v).fst.i2c,
        (Tca9555.write_port_1 (spyWrite oracle)
            (Tca9555.mk (DeviceAddr.Alternative false false false) tr) v).snd) ∧
    ((Tca9555.set_port_0_direction (spyWrite oracle)
        (Tca9555.mk DeviceAddr.Default tr) v).fst.i2c,
      (Tca9555.set_port_0_direction (spyWrite oracle)
        (Tca9555.mk DeviceAddr.Default tr) v).snd)
      = ((Tca9555.set_port_0_direction (spyWrite oracle)
            (Tca9555.mk (DeviceAddr.Alternative false false false) tr) v).fst.i2c,
        (Tca9555.set_port_0_direction (spyWrite oracle)
            (Tca9555.mk (DeviceAddr.Alternative false false false) tr) v).snd) ∧
    ((Tca9555.set_port_1_direction (spyWrite oracle)
        (Tca9555.mk DeviceAddr.Default tr) v).fst.i2c,
      (Tca9555.set_port_1_direction (spyWrite oracle)
        (Tca9555.mk DeviceAddr.Default tr) v).snd)
      = ((Tca9555.set_port_1_direction (spyWrite oracle)
            (Tca9555.mk (DeviceAddr.Alternative false false false) tr) v).fst.i2c,
        (Tca9555.set_port_1_direction (spyWrite oracle)
            (Tca9555.mk (DeviceAddr.Alternative false false false) tr) v).snd) ∧
    ((Tca9555.set_port_0_polarity_invert (spyWrite oracle)
        (Tca9555.mk DeviceAddr.Default tr) v).fst.i2c,
      (Tca9555.set_port_0_polarity_invert (spyWrite oracle)
        (Tca9555.mk DeviceAddr.Default tr) v).snd)
      = ((Tca9555.set_port_0_polarity_invert (spyWrite oracle)
            (Tca9555.mk (DeviceAddr.Alternative false false false) tr) v).fst.i2c,
        (Tca9555.set_port_0_polarity_invert (spyWrite oracle)
            (Tca9555.mk (DeviceAddr.Alternative false false false) tr) v).snd) ∧
    ((Tca9555.set_port_1_polarity_invert (spyWrite oracle)
        (Tca9555.mk DeviceAddr.Default tr) v).fst.i2c,
      (Tca9555.set_port_1_polarity_invert (spyWrite oracle)
        (Tca9555.mk DeviceAddr.Default tr) v).snd)
      = ((Tca9555.set_port_1_polarity_invert (spyWrite oracle)
            (Tca9555.mk (DeviceAddr.Alternative false false false) tr) v).fst.i2c,
        (Tca9555.set_port_1_polarity_invert (spyWrite oracle)
            (Tca9555.mk (DeviceAddr.Alternative false false false) tr) v).snd) ∧
    ((Tca9555.write_all (spyWrite oracle) (Tca9555.mk DeviceAddr.Default tr) v).fst.i2c,
      (Tca9555.write_all (spyWrite oracle) (Tca9555.mk DeviceAddr.Default tr) v).snd)
      = ((Tca9555.write_all (spyWrite oracle)
            (Tca9555.mk (DeviceAddr.Alternative false false false) tr) v).fst.i2c,
        (Tca9555.write_all (spyWrite oracle)
            (Tca9555.mk (DeviceAddr.Alternative false false false) tr) v).snd) := by
  have haddr : (DeviceAddr.Alternative false false false).addr = DeviceAddr.Default.addr := by
    decide
  refine ⟨by decide, by decide, ?_, ?_, ?_, ?_, ?_, ?_, ?_, ?_, ?_, ?_⟩
  · simp [read_port_0_spy_eq, haddr]
  · simp [read_port_1_spy_eq, haddr]
  · rw [read_all_spy_eq, read_all_spy_eq, haddr]
    rcases oracle tr
        (Transaction.write_read DeviceAddr.Default.addr [command.READ_PORT_0] [0]) with e | v0
    · rfl
    · rcases oracle
          (tr ++ [Transaction.write_read DeviceAddr.Default.addr [command.READ_PORT_0] [0]])
          (Transaction.write_read DeviceAddr.Default.addr [command.READ_PORT_1] [0]) with e | v1 <;>
        rfl
  · simp [write_port_0_spy_eq, haddr]
  · simp [write_port_1_spy_eq, haddr]
  · simp [set_port_0_direction_spy_eq, haddr]
  · simp [set_port_1_direction_spy_eq, haddr]
  · simp [set_port_0_polarity_invert_spy_eq, haddr]
  · simp [set_port_1_polarity_invert_spy_eq, haddr]
  · rw [write_all_spy_eq, write_all_spy_eq, haddr]
    rcases oracle tr
        (Transaction.write DeviceAddr.Default.addr [command.WRITE_PORT_0, v % 256]) with e | u <;>
      rfl

/-- C9: address resolution is a total, pure, deterministic function of the
`DeviceAddr` value — defined for every variant with no error outcome, equal
inputs give equal outputs, and the result always lies in [0x20, 0x27]. -/
theorem C9_addr_total_deterministic_range :
    ∀ d : DeviceAddr, (0x20 ≤ d.addr ∧ d.addr ≤ 0x27) ∧
      ∀ d2 : DeviceAddr, d = d2 → d.addr = d2.addr := by
  intro d
  refine ⟨?_, ?_⟩
  · rcases d with _ | ⟨a0, a1, a2⟩
    · decide
    · cases a0 <;> cases a1 <;> cases a2 <;> decide
  · intro d2 h
    rw [h]

/-- Witness for C9 at the all-high strap configuration. -/
theorem C9_witness :
    ((0x20 ≤ (DeviceAddr.Alternative true true true).addr ∧
      (DeviceAddr.Alternative true true true).addr ≤ 0x27) ∧
     (DeviceAddr.Alternative true true true).addr
        = (DeviceAddr.Alternative true true true).addr) :=
  ⟨(C9_addr_total_deterministic_range (DeviceAddr.Alternative true true true)).1,
    (C9_addr_total_deterministic_range (DeviceAddr.Alternative true true true)).2
      (DeviceAddr.Alternative true true true) rfl⟩

/-- C10: the stored `DeviceAddr` equals the one passed to the constructor
after any sequence of operations (no operation mutates it), and on the
recording transport every transaction any operation issues — including both
halves of `read_all` and `write_all` — is addressed to the resolved address
of the stored `DeviceAddr`. -/
theorem C10_fixed_address_frame (I2C E : Type) (rbus : WriteReadCap I2C E)
    (wbus : WriteCap I2C E)
    (oracle : List Transaction → Transaction → Except E (List Nat))
    (s : I2C) (tr : List Transaction) (a : DeviceAddr) (v : Nat)
    (ops : List DriverOp) :
    (Tca9555.new s a).address = a ∧
    (runOps rbus wbus (Tca9555.new s a) ops).address = a ∧
    (Tca9555.read_port_0 (spyWriteRead oracle) (Tca9555.mk a tr)).fst.i2c
        = tr ++ [Transaction.write_read a.addr [command.READ_PORT_0] [0]] ∧
    (Tca9555.read_port_1 (spyWriteRead oracle) (Tca9555.mk a tr)).fst.i2c
        = tr ++ [Transaction.write_read a.addr [command.READ_PORT_1] [0]] ∧
    (Tca9555.write_port_0 (spyWrite oracle) (Tca9555.mk a tr) v).fst.i2c
        = tr ++ [Transaction.write a.addr [command.WRITE_PORT_0, v % 256]] ∧
    (Tca9555.write_port_1 (spyWrite oracle) (Tca9555.mk a tr) v).fst.i2c
        = tr ++ [Transaction.write a.addr [command.WRITE_PORT_1, v % 256]] ∧
    (Tca9555.set_port_0_direction (spyWrite oracle) (Tca9555.mk a tr) v).fst.i2c
        = tr ++ [Transaction.write a.addr [command.CONFIGURATION_PORT_0, v % 256]] ∧
    (Tca9555.set_port_1_direction (spyWrite oracle) (Tca9555.mk a tr) v).fst.i2c
        = tr ++ [Transaction.write a.addr [command.CONFIGURATION_PORT_1, v % 256]] ∧
    (Tca9555.set_port_0_polarity_invert (spyWrite oracle) (Tca9555.mk a tr) v).fst.i2c
        = tr ++ [Transaction.write a.addr [command.POLARITY_INVERT_PORT_0, v % 256]] ∧
    (Tca9555.set_port_1_polarity_invert (spyWrite oracle) (Tca9555.mk a tr) v).fst.i2c
        = tr ++ [Transaction.write a.addr [command.POLARITY_INVERT_PORT_1, v % 256]] ∧
    (Tca9555.read_all (spyWriteRead oracle) (Tca9555.mk a tr)).fst.i2c
        = tr ++ (Transaction.write_read a.addr [command.READ_PORT_0] [0] ::
            (match oracle tr (Transaction.write_read a.addr [command.READ_PORT_0] [0]) with
             | Except.error _ => []
             | Except.ok _ => [Transaction.write_read a.addr [command.READ_PORT_1] [0]])) ∧
    (Tca9555.write_all (spyWrite oracle) (Tca9555.mk a tr) v).fst.i2c
        = tr ++ (Transaction.write a.addr [command.WRITE_PORT_0, v % 256] ::
            (match oracle tr (Transaction.write a.addr [command.WRITE_PORT_0, v % 256]) with
             | Except.error _ => []
             | Except.ok _ =>
                [Transaction.write a.addr
                  [command.WRITE_PORT_1, (v % 65536) / 256 % 256]])) := by
  refine ⟨rfl, (runOps_address rbus wbus (Tca9555.new s a) ops).trans rfl,
    ?_, ?_, ?_, ?_, ?_, ?_, ?_, ?_, ?_, ?_⟩
  · simp [read_port_0_spy_eq]
  · simp [read_port_1_spy_eq]
  · simp [write_port_0_spy_eq]
  · simp [write_port_1_spy_eq]
  · simp [set_port_0_direction_spy_eq]
  · simp [set_port_1_direction_spy_eq]
  · simp [set_port_0_polarity_invert_spy_eq]
  · simp [set_port_1_polarity_invert_spy_eq]
  · rw [read_all_spy_eq]
    rcases oracle tr (Transaction.write_read a.addr [command.READ_PORT_0] [0]) with e | v0
    · simp
    · rcases oracle (tr ++ [Transaction.write_read a.addr [command.READ_PORT_0] [0]])
          (Transaction.write_read a.addr [command.READ_PORT_1] [0]) with e | v1 <;> simp
  · rw [write_all_spy_eq]
    rcases oracle tr (Transaction.write a.addr [command.WRITE_PORT_0, v % 256]) with e | u <;>
      simp
